import Mathlib

/-!
Shallow embedding of the spot-instance pool reconciler of this repository
(`server/ec2spotmanager/tasks.py`, `server/ec2spotmanager/CloudProvider/CloudProvider.py`,
`server/ec2spotmanager/CloudProvider/EC2SpotCloudProvider.py`) together with
theorems settling the frozen claims about it.

Conventions of the embedding:
* Python dicts are association lists preserving insertion order; Python sets
  are lists queried by membership.
* Spot prices (Python floats) are modelled as rationals; the code only ever
  divides prices by core counts and compares them.
* The redis cache is a list of `(key, value, ttl-seconds)` triples; the value
  of a price key is the structure that `json.loads` would return, so
  (de)serialization is the identity on the `prices` variant of `CacheVal`.
* Cloud calls are modelled by an oracle supplying the provider responses, and
  every outgoing call is recorded as a `CloudAction`; a raised Python
  exception is an `Except`-error carrying `(exception-kind, message)`.
* Database rows (Django models) are identified by a synthetic primary key
  `pk`; the in-memory objects live in `objs` and a row exists when its `pk`
  is listed in `dbIds`.
-/

namespace SpotManager

/-- The canonical instance-state table
(`CloudProvider/CloudProvider.py:21-22`, `INSTANCE_STATE_CODE`). -/
def INSTANCE_STATE_CODE : List (Int × String) :=
  [(-1, "requested"), (0, "pending"), (16, "running"), (32, "shutting-down"),
   (48, "terminated"), (64, "stopping"), (80, "stopped")]

/-- The inverse mapping (`CloudProvider/CloudProvider.py:23`, `INSTANCE_STATE`).
All lookups in the source use the seven valid names, so the catch-all value is
never produced by the embedded code. -/
def INSTANCE_STATE : String → Int
  | "requested" => -1
  | "pending" => 0
  | "running" => 16
  | "shutting-down" => 32
  | "terminated" => 48
  | "stopping" => 64
  | "stopped" => 80
  | _ => -100

/-- `PROVIDERS` (`CloudProvider/CloudProvider.py:25`). -/
def PROVIDERS : List String := ["EC2Spot"]

/-- `SPOTMGR_TAG` (`tasks.py:16`). -/
def SPOTMGR_TAG : String := "SpotManager"

/-- Modelled from the spec: the concrete `get_name` accessor of the EC2
provider is declared abstract in `CloudProvider.py:244` but its implementation
is not under `src/`; §4.1 says it returns the provider name and
`PROVIDERS = ['EC2Spot']`. -/
def get_name : String := "EC2Spot"

/-- Modelled from the spec: `uses_zones` is declared abstract in
`CloudProvider.py:233` and its EC2 implementation is not under `src/`; §4.5
treats the EC2 spot provider as zone-using. -/
def uses_zones : Bool := true

/-- A value held by the redis cache.  Blacklist keys store the empty string,
image keys store the image id, price keys store the serialized price
structure `region -> zone -> list of prices` (`tasks.py` builds it with
`json.dumps`/`json.loads`; serialization is modelled as the identity). -/
inductive CacheVal where
  | str (s : String)
  | prices (d : List (String × List (String × List ℚ)))
deriving DecidableEq, Repr

/-- The TTL-keyed redis store (§4.3): key, value, TTL in seconds. -/
structure Cache where
  entries : List (String × CacheVal × Nat)
deriving DecidableEq, Repr

def Cache.empty : Cache := ⟨[]⟩

/-- `redis.get`: the stored value, or `none` when the key is absent. -/
def Cache.get (c : Cache) (k : String) : Option CacheVal :=
  (c.entries.find? (fun e => e.1 == k)).map (fun e => e.2.1)

/-- The TTL recorded for a key (used only by theorems; redis tracks it). -/
def Cache.ttl (c : Cache) (k : String) : Option Nat :=
  (c.entries.find? (fun e => e.1 == k)).map (fun e => e.2.2)

/-- `redis.set(key, value, ex=ttl)`. -/
def Cache.set (c : Cache) (k : String) (v : CacheVal) (ttl : Nat) : Cache :=
  ⟨(k, v, ttl) :: c.entries.filter (fun e => e.1 != k)⟩

/-- The flattened pool configuration (§3 and the `config.ec2_*` accesses in
the source). -/
structure PoolConfig where
  size : Int
  cycle_interval : Int
  ec2_allowed_regions : List String
  ec2_instance_types : List String
  ec2_max_price : ℚ
  ec2_image_name : String
  ec2_tags : List (String × String)
deriving DecidableEq, Repr

/-- Modelled from the spec: the concrete `get_max_price` accessor is declared
abstract in `CloudProvider.py:203` and its EC2 implementation is not under
`src/`; §4.1 says it pulls the provider-specific max-price field from the
config. -/
def get_max_price (c : PoolConfig) : ℚ := c.ec2_max_price

/-- `get_allowed_regions` (`EC2SpotCloudProvider.py:284-286`). -/
def get_allowed_regions (c : PoolConfig) : List String := c.ec2_allowed_regions

/-- `get_image_name` (`EC2SpotCloudProvider.py:288-290`). -/
def get_image_name (c : PoolConfig) : String := c.ec2_image_name

/-- Modelled from the spec: the concrete `get_instance_types` accessor is
declared abstract in `CloudProvider.py:188` and its EC2 implementation is not
under `src/`; §4.1 says it pulls the instance-type set from the config. -/
def get_instance_types (c : PoolConfig) : List String := c.ec2_instance_types

/-- Modelled from the spec: the concrete `get_tags` accessor is declared
abstract in `CloudProvider.py:218` and its EC2 implementation is not under
`src/`; §4.1 says it pulls the tag mapping from the config. -/
def get_tags (c : PoolConfig) : List (String × String) := c.ec2_tags

/-- Stable insertion into a `≤`-sorted list (new element after equals). -/
def insertLeRat (x : ℚ) : List ℚ → List ℚ
  | [] => [x]
  | y :: rest => if y ≤ x then y :: insertLeRat x rest else x :: y :: rest

/-- Stable insertion sort (ascending). -/
def sortRat (l : List ℚ) : List ℚ := l.foldr insertLeRat []

/-- Modelled from the spec: `get_price_median`
(`server/ec2spotmanager/common/prices.py`) is not under `src/`; §4.5 step 2
only says "Compute the median of `out_prices`".  Median of the sorted list:
the middle element, or the mean of the two middle elements for even length. -/
def get_price_median (data : List ℚ) : ℚ :=
  let sdata := sortRat data
  let n := sdata.length
  if n % 2 == 0 then ((sdata.getD (n / 2) 0) + (sdata.getD (n / 2 - 1) 0)) / 2
  else sdata.getD (n / 2) 0

def digitVal? (c : Char) : Option Nat :=
  let n := c.toNat
  if 48 ≤ n && n ≤ 57 then some (n - 48) else none

def digitsToNat? : List Char → Option Nat → Option Nat
  | [], acc => acc
  | c :: rest, acc =>
      match digitVal? c, acc with
      | some d, some a => digitsToNat? rest (some (a * 10 + d))
      | some d, none => digitsToNat? rest (some d)
      | none, _ => none

/-- Python `int(string)`: an optional sign followed by decimal digits;
anything else raises `ValueError` (modelled as `none`). -/
def pyInt? (s : String) : Option Int :=
  match s.toList with
  | [] => none
  | '-' :: rest => (digitsToNat? rest none).map (fun n => -(n : Int))
  | l => (digitsToNat? l none).map (fun n => (n : Int))

/-- A local instance record (§3 Instance; Django model, `pk` is the row key). -/
structure Instance where
  pk : Nat
  instance_id : String
  hostname : Option String
  region : String
  zone : String
  status_code : Int
  pool : Nat
  size : Int
  created : Int
deriving DecidableEq, Repr

/-- A pool-status journal entry (§3 PoolStatusEntry).  The `type` field keeps
the symbolic name; the integer coding of `POOL_STATUS_ENTRY_TYPE` is
irrelevant to the control flow. -/
structure PoolStatusEntry where
  pool : Nat
  type : String
  msg : String
  isCritical : Bool
deriving DecidableEq, Repr

/-- Modelled from the spec: `POOL_STATUS_ENTRY_TYPE` lives in
`server/ec2spotmanager/models.py`, which is not under `src/`; §6 fixes the
key set to exactly these five types, so any other key raises `KeyError`. -/
def POOL_STATUS_ENTRY_TYPE : String → Option Nat
  | "unclassified" => some 0
  | "config-error" => some 1
  | "max-spot-instance-count-exceeded" => some 2
  | "temporary-failure" => some 3
  | "price-too-low" => some 4
  | _ => none

/-- A raised Python exception: the exception kind (or the `type` key of the
classified error dictionaries the providers raise) and its message. -/
structure PyErr where
  etype : String
  data : String
deriving DecidableEq, Repr

def pyErrStr (e : PyErr) : String := e.etype ++ ": " ++ e.data

instance {ε α : Type} [DecidableEq ε] [DecidableEq α] :
    DecidableEq (Except ε α) := fun a b =>
  match a, b with
  | .error e1, .error e2 =>
      if h : e1 = e2 then isTrue (by rw [h]) else isFalse (by
        intro hc; exact h (by injection hc))
  | .ok v1, .ok v2 =>
      if h : v1 = v2 then isTrue (by rw [h]) else isFalse (by
        intro hc; exact h (by injection hc))
  | .error _, .ok _ => isFalse (by intro hc; exact Except.noConfusion hc)
  | .ok _, .error _ => isFalse (by intro hc; exact Except.noConfusion hc)

/-- `_update_pool_status` (`tasks.py:285-292`): looks the type up in
`POOL_STATUS_ENTRY_TYPE` (raising `KeyError` for an unknown type) and appends
an entry with `isCritical = True` — the source sets `entry.isCritical = True`
unconditionally at `tasks.py:291`. -/
def update_pool_status (journal : List PoolStatusEntry) (pool : Nat)
    (mtype mdata : String) : Except PyErr (List PoolStatusEntry) :=
  match POOL_STATUS_ENTRY_TYPE mtype with
  | none => .error ⟨"KeyError", mtype⟩
  | some _ => .ok (journal ++ [⟨pool, mtype, mdata, true⟩])

/-- An outgoing cloud call recorded by the embedding. -/
inductive CloudAction where
  | terminateInstances (ids_by_region : List (String × List String))
  | startInstances (region zone image instance_type : String) (count : Int)
  | checkRequests (region : String) (request_ids : List String)
  | checkState (pool_id : Nat) (region : String)
  | getImage (region : String)
  | addTag (instance_id key value : String)
deriving DecidableEq, Repr

/-! ## Location selection (§4.5; `tasks.py:216-254` and
`EC2SpotCloudProvider.py:345-376`) -/

/-- The running best-candidate state of the selection loops
(`rejected_prices`, `best_zone`, `best_region`, `best_type`, `best_median`
initialized at `tasks.py:220-224` / `EC2SpotCloudProvider.py:347-351`). -/
structure BestState where
  rejected : List (String × ℚ)
  best_zone : Option String
  best_region : Option String
  best_type : Option String
  best_median : Option ℚ
deriving DecidableEq, Repr

def initBestState : BestState := ⟨[], none, none, none, none⟩

/-- `rejected_prices[zone] = min(rejected_prices.get(zone, 9999), out_prices[0])`
(`tasks.py:244` / `EC2SpotCloudProvider.py:366`). -/
def rejectedUpdate (r : List (String × ℚ)) (zone : String) (p : ℚ) :
    List (String × ℚ) :=
  let old := (((r.find? (fun e => e.1 == zone)).map (fun e => e.2)).getD 9999)
  (zone, min old p) :: r.filter (fun e => e.1 != zone)

/-- The body of the innermost zone loop, shared by both selector revisions
(`tasks.py:236-253` / `EC2SpotCloudProvider.py:359-375`); `blk` is the
blacklist test, `prices` the raw price list of this `(region, zone)`.  Zone
price lists are nonempty by construction in the collector
(`EC2SpotCloudProvider.py:315-319` appends at least one price before a zone
key exists), so `out_prices.headD 0` is the source's `out_prices[0]`. -/
def processZone (maxPrice : ℚ) (cores : String → Nat)
    (blk : String → String → Bool) (instance_type region zone : String)
    (prices : List ℚ) (st : BestState) : BestState :=
  if blk zone instance_type then st
  else
    let out_prices := prices.map (fun p => p / (cores instance_type : ℚ))
    if out_prices.headD 0 > maxPrice then
      { st with rejected := rejectedUpdate st.rejected zone (out_prices.headD 0) }
    else
      let median := get_price_median out_prices
      match st.best_median with
      | none =>
          { st with best_median := some median, best_zone := some zone,
                    best_region := some region, best_type := some instance_type }
      | some bm =>
          if bm > median then
            { st with best_median := some median, best_zone := some zone,
                      best_region := some region, best_type := some instance_type }
          else st

/-- The zone loop (`for zone in data[region]`). -/
def processZones (maxPrice : ℚ) (cores : String → Nat)
    (blk : String → String → Bool) (instance_type region : String) :
    List (String × List ℚ) → BestState → BestState
  | [], st => st
  | (zone, prices) :: rest, st =>
      processZones maxPrice cores blk instance_type region rest
        (processZone maxPrice cores blk instance_type region zone prices st)

/-- The region loop of `_determine_best_location` (`tasks.py:232-253`): skip
regions outside `allowed_regions`; the zone loop runs under
`if cloud_provider.uses_zones()` (`tasks.py:235`). -/
def processRegionsLoc (maxPrice : ℚ) (cores : String → Nat)
    (blk : String → String → Bool) (instance_type : String)
    (allowed : List String) :
    List (String × List (String × List ℚ)) → BestState → BestState
  | [], st => st
  | (region, zones) :: rest, st =>
      if allowed.contains region then
        processRegionsLoc maxPrice cores blk instance_type allowed rest
          (if uses_zones then
            processZones maxPrice cores blk instance_type region zones st
          else st)
      else processRegionsLoc maxPrice cores blk instance_type allowed rest st

/-- The cached price structure for one instance type:
`json.loads(cache.get('<name>:price:<type>'))` (`tasks.py:227-231`); `none`
when the key is absent (the code then hits `continue`). -/
def priceOf (cache : Cache) (instance_type : String) :
    Option (List (String × List (String × List ℚ))) :=
  match cache.get (get_name ++ ":price:" ++ instance_type) with
  | none => none
  | some (.prices d) => some d
  | some (.str _) => none

/-- The blacklist test of `_determine_best_location` (`tasks.py:237-238`):
`cache.get("<name>:blacklist:<zone>:<type>") is not None`. -/
def blkOf (cache : Cache) (zone instance_type : String) : Bool :=
  (cache.get (get_name ++ ":blacklist:" ++ zone ++ ":" ++ instance_type)).isSome

/-- The instance-type loop of `_determine_best_location` (`tasks.py:226-254`).
The source's `return` at `tasks.py:254` is indented INSIDE the
`for instance_type in instance_types` loop, so the function returns right
after the first instance type that has price data; only types without data
are passed over (`continue` at `tasks.py:230`).  When no type has data the
loop falls off the end and the function returns Python `None`, modelled as
the outer `none`. -/
def dbl_loop (maxPrice : ℚ) (cores : String → Nat) (allowed : List String)
    (cache : Cache) :
    List String → BestState →
    Option (Option String × Option String × Option String × List (String × ℚ))
  | [], _ => none
  | instance_type :: rest, st =>
      match priceOf cache instance_type with
      | none => dbl_loop maxPrice cores allowed cache rest st
      | some data =>
          let st2 := processRegionsLoc maxPrice cores (blkOf cache)
            instance_type allowed data st
          some (st2.best_region, st2.best_zone, st2.best_type, st2.rejected)

/-- `_determine_best_location` (`tasks.py:216-254`). -/
def determine_best_location (config : PoolConfig) (regions : List String)
    (instance_types : List String) (cache : Cache) (cores : String → Nat) :
    Option (Option String × Option String × Option String × List (String × ℚ)) :=
  dbl_loop (get_max_price config) cores regions cache instance_types initBestState

/-- The region loop of `_determine_best_price`
(`EC2SpotCloudProvider.py:356-375`): no `uses_zones` guard here. -/
def processRegionsPrice (maxPrice : ℚ) (cores : String → Nat)
    (blk : String → String → Bool) (instance_type : String)
    (allowed : List String) :
    List (String × List (String × List ℚ)) → BestState → BestState
  | [], st => st
  | (region, zones) :: rest, st =>
      if allowed.contains region then
        processRegionsPrice maxPrice cores blk instance_type allowed rest
          (processZones maxPrice cores blk instance_type region zones st)
      else processRegionsPrice maxPrice cores blk instance_type allowed rest st

/-- The instance-type loop of the provider revision `_determine_best_price`
(`EC2SpotCloudProvider.py:353-376`): here the `return` is OUTSIDE the loop,
so every instance type present in `prices` and configured is considered. -/
def dbp_loop (maxPrice : ℚ) (cores : String → Nat)
    (configured allowed : List String)
    (blacklisted : List (String × String)) :
    List (String × List (String × List (String × List ℚ))) → BestState → BestState
  | [], st => st
  | (instance_type, data) :: rest, st =>
      if configured.contains instance_type then
        dbp_loop maxPrice cores configured allowed blacklisted rest
          (processRegionsPrice maxPrice cores
            (fun z t => blacklisted.contains (z, t)) instance_type allowed data st)
      else dbp_loop maxPrice cores configured allowed blacklisted rest st

/-- `_determine_best_price` (`EC2SpotCloudProvider.py:345-376`). -/
def determine_best_price (config : PoolConfig)
    (prices : List (String × List (String × List (String × List ℚ))))
    (blacklisted : List (String × String)) (cores : String → Nat) :
    Option String × Option String × Option String × List (String × ℚ) :=
  let st := dbp_loop config.ec2_max_price cores config.ec2_instance_types
    config.ec2_allowed_regions blacklisted prices initBestState
  (st.best_region, st.best_zone, st.best_type, st.rejected)

/-! ## Instance-type winnowing and the cores-to-instances conversion
(`tasks.py:130-145`; `EC2SpotCloudProvider.py:59-90`) -/

/-- One pass of the winnowing loop: collect `acceptable_types` (core count at
most `count`) and the list of `smallest` types with its size.  The loop body
is identical in `tasks.py:135-145` and `EC2SpotCloudProvider.py:63-72`; the
reassignment of the type list sits inside the loop in `tasks.py:145` and
after it in `EC2SpotCloudProvider.py:74`, but both iterate over a copy of the
original list, so the final value is the same function of the input. -/
def winnow_step (cores : String → Nat) (count : Int)
    (acc : List String × List String × Option Nat) (instance_type : String) :
    List String × List String × Option Nat :=
  let instance_size := cores instance_type
  let acceptable := if (instance_size : Int) ≤ count then
      acc.1 ++ [instance_type] else acc.1
  if acc.2.1.isEmpty || decide (instance_size < acc.2.2.getD 0) then
    (acceptable, [instance_type], some instance_size)
  else if (instance_size : Nat) == acc.2.2.getD 0 then
    (acceptable, acc.2.1 ++ [instance_type], acc.2.2)
  else (acceptable, acc.2.1, acc.2.2)

/-- The winnowed instance-type list: `acceptable_types or smallest`. -/
def winnow_types (instance_types : List String) (cores : String → Nat)
    (count : Int) : List String :=
  let r := instance_types.foldl (winnow_step cores count) ([], [], none)
  if r.1.isEmpty then r.2.1 else r.1

/-- The cores-to-instances conversion of the provider revision,
`count = max(1, count // CORES_PER_INSTANCE[instance_type])`
(`EC2SpotCloudProvider.py:90`).  At that line `instance_type` is the loop
variable left over from the winnowing loop at line 63, i.e. the LAST element
of the original `config.ec2_instance_types` — `_determine_best_price` has
not yet run, so it is not the chosen type.  The list must be nonempty (an
empty list would leave the Python variable unbound). -/
def ec2_convert_count (instance_types : List String) (cores : String → Nat)
    (count : Int) : Int :=
  max 1 (count / (cores (instance_types.getLastD "") : Int))

/-- Resolution of the image id in `_start_pool_instances`
(`tasks.py:173-180`): read the cache, then OVERWRITE the read value with
`None` (`image = None` at `tasks.py:176`), so the cache-miss branch always
runs: `get_image` is always called and the key is always rewritten with a
24-hour TTL.  The dead `some` branch is kept to mirror the source's
`if image is None`. -/
def resolve_image (cache : Cache) (region image_name : String)
    (getImageResult : Except PyErr String) :
    Except PyErr (String × Cache × List CloudAction) :=
  let image_key := PROVIDERS.headD "" ++ ":image:" ++ region ++ ":" ++ image_name
  let _image0 := cache.get image_key
  let image : Option String := none
  match image with
  | none =>
      match getImageResult with
      | .error e => .error e
      | .ok img =>
          .ok (img, cache.set image_key (.str img) (24 * 3600),
               [CloudAction.getImage region])
  | some img => .ok (img, cache, [])

/-! ## Provider request polling and state listing
(`EC2SpotCloudProvider.py:153-228`) -/

/-- One element of `cluster.check_spot_requests(instances, tags)`
(`EC2SpotCloudProvider.py:164`): a fulfilled boto instance, a spot request
object (cancelled / closed / open / active / failed), `None` for a still-open
request, or an object of any other type. -/
inductive SpotRequestResult where
  | fulfilled (instance_id public_dns_name : String) (state_code : Nat)
  | request (state status_code instance_type : String)
  | stillOpen
  | other (type_name : String)
deriving DecidableEq, Repr

/-- One entry of the `successful_requests` dictionary
(`EC2SpotCloudProvider.py:171-176`). -/
structure FulfilledInfo where
  hostname : String
  instance_id : String
  status_code : Int
deriving DecidableEq, Repr

/-- One entry of the `failed_requests` dictionary
(`EC2SpotCloudProvider.py:186-201`): `instance_type` is set only for the
blacklist action, `pool` only for disable_pool. -/
structure FailedInfo where
  action : String
  instance_type : Option String
  pool : Option Nat
deriving DecidableEq, Repr

/-- The result loop of `check_instances_requests`
(`EC2SpotCloudProvider.py:166-207`): fulfilled requests are recorded with the
masked state code (`state_code & 255`, line 176) and tagged
`SpotManager-Updatable=1` (line 179); `cancelled`/`closed` yield a blacklist
action (lines 183-188); `open`/`active` are left pending (189-195); any
other state yields `disable_pool` and BREAKS out of the loop (196-202);
`None` results are skipped. -/
def cir_loop (pool_id : Nat) :
    List (String × SpotRequestResult) →
    List (String × FulfilledInfo) × List (String × FailedInfo) × List CloudAction
  | [] => ([], [], [])
  | (req_id, res) :: rest =>
      match res with
      | .fulfilled iid dns code =>
          let r := cir_loop pool_id rest
          ((req_id, ⟨dns, iid, ((code % 256 : Nat) : Int)⟩) :: r.1, r.2.1,
           CloudAction.addTag iid (SPOTMGR_TAG ++ "-Updatable") "1" :: r.2.2)
      | .request state _scode itype =>
          if state == "cancelled" || state == "closed" then
            let r := cir_loop pool_id rest
            (r.1, (req_id, ⟨"blacklist", some itype, none⟩) :: r.2.1, r.2.2)
          else if state == "open" || state == "active" then
            cir_loop pool_id rest
          else
            ([], [(req_id, ⟨"disable_pool", none, some pool_id⟩)], [])
      | .stillOpen => cir_loop pool_id rest
      | .other _ => cir_loop pool_id rest

/-- `check_instances_requests` (`EC2SpotCloudProvider.py:153-208`), given the
provider's per-request results (zipped with the request ids as at line 166). -/
def check_instances_requests (pool_id : Nat) (instances : List String)
    (results : List SpotRequestResult) :
    List (String × FulfilledInfo) × List (String × FailedInfo) × List CloudAction :=
  cir_loop pool_id (instances.zip results)

/-- One instance as reported by the cloud (`cluster.find` result,
`EC2SpotCloudProvider.py:220`): raw 16-bit state code and tags. -/
structure CloudInstanceInfo where
  id : String
  state_code : Nat
  tags : List (String × String)
deriving DecidableEq, Repr

/-- `check_instances_state` (`EC2SpotCloudProvider.py:210-228`): an instance
is dropped only when its RAW `state_code` equals the canonical
`shutting-down` (32) or `terminated` (48) code (line 223, no mask), while
the reported status is the masked low byte `state_code & 255` (line 225). -/
def check_instances_state (boto_instances : List CloudInstanceInfo) :
    List (String × Int × List (String × String)) :=
  (boto_instances.filter (fun i =>
      !((i.state_code : Int) == INSTANCE_STATE "shutting-down" ||
        (i.state_code : Int) == INSTANCE_STATE "terminated"))).map
    (fun i => (i.id, ((i.state_code % 256 : Nat) : Int), i.tags))

/-! ## Pool state and inventory reconciliation (`tasks.py:295-451`)

Django rows are modelled by a synthetic primary key: `objs` holds the
in-memory model objects (always the latest saved or unsaved-but-mutated
state, since Python shares references), `dbIds` the keys of rows currently
present in the database.  `save()` updates `objs`; `delete()` removes the
key from `dbIds`. -/

/-- The pool row (`InstancePool` model): the fields the reconciler reads. -/
structure InstancePool where
  id : Nat
  isEnabled : Bool
  last_cycled : Option Int
deriving DecidableEq, Repr

/-- The mutable world of one reconciliation: the pool row, the instance
table, the status journal and the redis cache. -/
structure PoolState where
  pool : InstancePool
  objs : List Instance
  dbIds : List Nat
  journal : List PoolStatusEntry
  cache : Cache
  nextPk : Nat
deriving DecidableEq, Repr

/-- `Instance.objects.filter(pool=pool)`. -/
def poolInstances (st : PoolState) : List Instance :=
  st.objs.filter (fun i => st.dbIds.contains i.pk && i.pool == st.pool.id)

def objGet (objs : List Instance) (pk : Nat) : Option Instance :=
  objs.find? (fun i => i.pk == pk)

/-- `instance.save()` on an existing object: replace the row. -/
def objsSave (objs : List Instance) (i : Instance) : List Instance :=
  objs.map (fun j => if j.pk == i.pk then i else j)

def byIdsGet (b : List (String × Nat)) (id : String) : Option Nat :=
  (b.find? (fun p => p.1 == id)).map (fun p => p.2)

def byIdsErase (b : List (String × Nat)) (id : String) : List (String × Nat) :=
  b.filter (fun p => p.1 != id)

/-- Python dict insertion: a fresh key is appended at the end. -/
def byIdsInsert (b : List (String × Nat)) (id : String) (pk : Nat) :
    List (String × Nat) :=
  byIdsErase b id ++ [(id, pk)]

/-- `_get_instance_ids_by_region`-style grouping (`tasks.py:267-275`):
regions in first-appearance order, ids appended in list order. -/
def groupInsert (acc : List (String × List String)) (region id : String) :
    List (String × List String) :=
  if acc.any (fun p => p.1 == region) then
    acc.map (fun p => if p.1 == region then (p.1, p.2 ++ [id]) else p)
  else acc ++ [(region, [id])]

/-- The provider's responses for this tick: spot-request results per region,
the cloud instance listing per `(pool, region)`, the request ids returned by
`start_instances`, and the image lookup.  A `.error` models a raised,
classified provider exception. -/
structure CloudOracle where
  spotResults : String → List String → Except PyErr (List SpotRequestResult)
  cloudInstances : Nat → String → Except PyErr (List CloudInstanceInfo)
  startRequestIds : String → String → String → Int → Except PyErr (List String)
  imageId : String → Except PyErr String

/-- The state threaded through the region loop of `_update_pool_instances`:
instance objects, DB rows, the `instances_by_ids` dict, the `instances_left`
list (as primary keys), the cache, the `instances_created` flag and the
recorded cloud calls. -/
structure RegionState where
  objs : List Instance
  dbIds : List Nat
  byIds : List (String × Nat)
  leftPks : List Nat
  cache : Cache
  created : Bool
  actions : List CloudAction
deriving Repr

/-- The `successful_requests` loop (`tasks.py:337-348`): rewrite the local
record (hostname, real instance id, status), re-key `instances_by_ids`,
append the new id to this region's id list, set `instances_created`.
A Python exception (`KeyError` on a missing dict key) aborts with the state
reached so far, as Python would. -/
def processFulfilled (rs : RegionState) (rids : List String) :
    List (String × FulfilledInfo) →
    Except (RegionState × PyErr) (RegionState × List String)
  | [] => .ok (rs, rids)
  | (req_id, info) :: rest =>
      match byIdsGet rs.byIds req_id with
      | none => .error (rs, ⟨"KeyError", req_id⟩)
      | some pk =>
          match objGet rs.objs pk with
          | none => .error (rs, ⟨"KeyError", req_id⟩)
          | some inst =>
              let inst2 : Instance :=
                { inst with
                  hostname := some info.hostname
                  instance_id := info.instance_id
                  status_code := info.status_code }
              let byIds2 := byIdsInsert (byIdsErase rs.byIds req_id) info.instance_id pk
              let rs2 : RegionState :=
                { rs with
                  objs := objsSave rs.objs inst2
                  byIds := byIds2
                  created := true }
              processFulfilled rs2 (rids ++ [info.instance_id]) rest

/-- The `failed_requests` loop (`tasks.py:350-361`): `blacklist` sets the
12-hour cache key from the LOCAL record's zone and the provider-reported
instance type, then deletes the record; `disable_pool` reaches
`_update_pool_status(pool, ..type.. 'unclassifed' ..)` (`tasks.py:361`, sic)
whose `POOL_STATUS_ENTRY_TYPE` lookup raises `KeyError` before anything is
saved. -/
def processFailed (rs : RegionState) :
    List (String × FailedInfo) → Except (RegionState × PyErr) RegionState
  | [] => .ok rs
  | (req_id, fi) :: rest =>
      match byIdsGet rs.byIds req_id with
      | none => .error (rs, ⟨"KeyError", req_id⟩)
      | some pk =>
          if fi.action == "blacklist" then
            match objGet rs.objs pk, fi.instance_type with
            | some inst, some itype =>
                let key := get_name ++ ":blacklist:" ++ inst.zone ++ ":" ++ itype
                let rs2 : RegionState :=
                  { rs with
                    cache := rs.cache.set key (.str "") (12 * 3600)
                    dbIds := rs.dbIds.filter (fun x => x != pk) }
                processFailed rs2 rest
            | some _, none => .error (rs, ⟨"KeyError", "instance_type"⟩)
            | none, _ => .error (rs, ⟨"KeyError", req_id⟩)
          else if fi.action == "disable_pool" then
            .error (rs, ⟨"KeyError", "unclassifed"⟩)
          else processFailed rs rest

/-- The cloud cross-reference loop (`tasks.py:364-414`) over the output of
`check_instances_state`.  Not-updatable instances are only removed from
`instances_left` (an unguarded `list.remove`, `tasks.py:374`, raising
`ValueError` when absent); an updatable cloud instance unknown in this
region that is not shutting down is re-looked-up in the whole instance
table and `assert False` fires when still missing (`tasks.py:393-403`);
known instances get their status updated when it differs. -/
def cloudLoop (rs : RegionState) (rids : List String) :
    List (String × Int × List (String × String)) →
    Except (RegionState × PyErr) RegionState
  | [] => .ok rs
  | (cid, status, ctags) :: rest =>
      let notUpdatable : Option (Except (RegionState × PyErr) RegionState) :=
        match (ctags.find? (fun p => p.1 == SPOTMGR_TAG ++ "-Updatable")).map
          (fun p => p.2) with
        | none => some (match rids.contains cid, byIdsGet rs.byIds cid with
            | true, some pk =>
                if rs.leftPks.contains pk then
                  cloudLoop { rs with leftPks := rs.leftPks.erase pk } rids rest
                else .error (rs, ⟨"ValueError", "x not in list"⟩)
            | true, none => .error (rs, ⟨"KeyError", cid⟩)
            | false, _ => cloudLoop rs rids rest)
        | some v =>
            match pyInt? v with
            | none => some (.error (rs, ⟨"ValueError", v⟩))
            | some n =>
                if n ≤ 0 then
                  some (match rids.contains cid, byIdsGet rs.byIds cid with
                    | true, some pk =>
                        if rs.leftPks.contains pk then
                          cloudLoop { rs with leftPks := rs.leftPks.erase pk }
                            rids rest
                        else .error (rs, ⟨"ValueError", "x not in list"⟩)
                    | true, none => .error (rs, ⟨"KeyError", cid⟩)
                    | false, _ => cloudLoop rs rids rest)
                else none
      match notUpdatable with
      | some r => r
      | none =>
          if !(rids.contains cid) then
            if !(status == INSTANCE_STATE "shutting-down" ||
                 status == INSTANCE_STATE "terminated") then
              let q := rs.objs.filter (fun i =>
                rs.dbIds.contains i.pk && i.instance_id == cid)
              if q.isEmpty then .error (rs, ⟨"AssertionError", "assert False"⟩)
              else cloudLoop rs rids rest
            else cloudLoop rs rids rest
          else
            match byIdsGet rs.byIds cid with
            | none => .error (rs, ⟨"KeyError", cid⟩)
            | some pk =>
                let rs1 := if rs.leftPks.contains pk then
                    { rs with leftPks := rs.leftPks.erase pk } else rs
                match objGet rs1.objs pk with
                | none => .error (rs1, ⟨"KeyError", cid⟩)
                | some inst =>
                    if !(inst.status_code == status) then
                      let inst2 : Instance := { inst with status_code := status }
                      cloudLoop { rs1 with objs := objsSave rs1.objs inst2 } rids rest
                    else cloudLoop rs1 rids rest

/-- The body of `for region in instance_ids_by_region` (`tasks.py:324-414`):
poll pending spot requests, then cross-reference the cloud listing.  The
`tags` dict built at `tasks.py:321-322` is never used afterwards and is
omitted. -/
def regionBody (oracle : CloudOracle) (pool_id : Nat) (rs : RegionState)
    (region : String) (rids0 : List String) :
    Except (RegionState × PyErr) RegionState :=
  let requested := rids0.filter (fun id =>
    match byIdsGet rs.byIds id with
    | some pk =>
        match objGet rs.objs pk with
        | some i => i.status_code == INSTANCE_STATE "requested"
        | none => false
    | none => false)
  let step1 : Except (RegionState × PyErr) (RegionState × List String) :=
    if requested.isEmpty then .ok (rs, rids0)
    else
      let rsA := { rs with actions := rs.actions ++
        [CloudAction.checkRequests region requested] }
      match oracle.spotResults region requested with
      | .error e => .error (rsA, e)
      | .ok results =>
          let r := check_instances_requests pool_id requested results
          let rsB := { rsA with actions := rsA.actions ++ r.2.2 }
          match processFulfilled rsB rids0 r.1 with
          | .error x => .error x
          | .ok (rsC, rids2) =>
              match processFailed rsC r.2.1 with
              | .error x => .error x
              | .ok rsD => .ok (rsD, rids2)
  match step1 with
  | .error x => .error x
  | .ok (rsE, rids) =>
      let rsF := { rsE with actions := rsE.actions ++
        [CloudAction.checkState pool_id region] }
      match oracle.cloudInstances pool_id region with
      | .error e => .error (rsF, e)
      | .ok boto => cloudLoop rsF rids (check_instances_state boto)

/-- One region iteration with the `except` handler of `tasks.py:416-417`:
any exception becomes an `unclassified` journal entry (critical, since
`_update_pool_status` sets `isCritical = True` unconditionally) and the loop
moves on to the next region, keeping all mutations made before the raise. -/
def regionStep (oracle : CloudOracle) (pool_id : Nat)
    (acc : RegionState × List PoolStatusEntry) (entry : String × List String) :
    RegionState × List PoolStatusEntry :=
  match regionBody oracle pool_id acc.1 entry.1 entry.2 with
  | .ok rs => (rs, acc.2)
  | .error (rs, e) =>
      (rs, acc.2 ++ [⟨pool_id, "unclassified", pyErrStr e, true⟩])

/-- The setup and region loop of `_update_pool_instances`
(`tasks.py:299-417`): build `instance_ids_by_region`, `instances_by_ids` and
`instances_left`, then fold the region bodies, threading the region state
and the journal. -/
def upi_regions (oracle : CloudOracle) (st : PoolState) :
    RegionState × List PoolStatusEntry :=
  let insts := poolInstances st
  let idsByRegion := insts.foldl (fun a i => groupInsert a i.region i.instance_id) []
  let byIds := insts.foldl (fun b i => byIdsInsert b i.instance_id i.pk) []
  let left0 := (insts.filter (fun i =>
    !(i.status_code == INSTANCE_STATE "requested"))).map (fun i => i.pk)
  let rs0 : RegionState :=
    ⟨st.objs, st.dbIds, byIds, left0, st.cache, false, []⟩
  idsByRegion.foldl (regionStep oracle st.pool.id) (rs0, st.journal)

/-- `_update_pool_instances` (`tasks.py:295-451`): returns the new world
state, the `instances_created` flag and the recorded cloud calls.  After the
region loop, every instance still in `instances_left` is deleted
(`tasks.py:419-437`), and when `instances_created` is set the outstanding
`max-spot-instance-count-exceeded` and `temporary-failure` entries of this
pool are deleted from the journal (`tasks.py:439-449`). -/
def update_pool_instances (oracle : CloudOracle) (st : PoolState) :
    PoolState × Bool × List CloudAction :=
  let r := upi_regions oracle st
  let dbIds2 := r.1.dbIds.filter (fun pk => !(r.1.leftPks.contains pk))
  let j2 := if r.1.created then
      r.2.filter (fun e => !(e.pool == st.pool.id &&
        (e.type == "max-spot-instance-count-exceeded" ||
         e.type == "temporary-failure")))
    else r.2
  let st2 : PoolState :=
    { st with
      objs := r.1.objs
      dbIds := dbIds2
      cache := r.1.cache
      journal := j2 }
  (st2, r.1.created, r.1.actions)

/-! ## The reconciliation entry point (`tasks.py:19-196` and 257-264) -/

/-- The capacity-counting loop (`tasks.py:54-69`): `running`/`pending`/
`requested` instances are kept and subtracted from the missing-core count;
`shutting-down`/`terminated` instances are deleted; every OTHER state
(stopped, stopping, ...) falls into the `else` branch at `tasks.py:66-69`
and is ALSO kept and counted.  Returns the final
`instance_cores_missing`, the kept (`running_instances`) keys in order, and
the deleted keys. -/
def capacity_scan : Int → List Instance → Int × List Nat × List Nat
  | missing, [] => (missing, [], [])
  | missing, i :: rest =>
      if i.status_code == INSTANCE_STATE "running" ||
         i.status_code == INSTANCE_STATE "pending" ||
         i.status_code == INSTANCE_STATE "requested" then
        let r := capacity_scan (missing - i.size) rest
        (r.1, i.pk :: r.2.1, r.2.2)
      else if i.status_code == INSTANCE_STATE "shutting-down" ||
              i.status_code == INSTANCE_STATE "terminated" then
        let r := capacity_scan missing rest
        (r.1, r.2.1, i.pk :: r.2.2)
      else
        let r := capacity_scan (missing - i.size) rest
        (r.1, i.pk :: r.2.1, r.2.2)

/-- The over-capacity selection loop (`tasks.py:97-106`) over the pool's
instances ordered by `created`: skip an instance whose termination would
leave the pool short (`instance_cores_missing + instance.size > 0`),
otherwise take it, and stop as soon as the count reaches exactly zero. -/
def scale_down_select : Int → List Instance → List Instance
  | _, [] => []
  | missing, i :: rest =>
      if missing + i.size > 0 then scale_down_select missing rest
      else if missing + i.size == 0 then [i]
      else i :: scale_down_select (missing + i.size) rest

/-- Stable insertion for the `created` ordering. -/
def insertByCreated (i : Instance) : List Instance → List Instance
  | [] => [i]
  | j :: rest =>
      if j.created ≤ i.created then j :: insertByCreated i rest
      else i :: j :: rest

/-- `Instance.objects.filter(pool=...).order_by('created')`: a stable
ascending sort on `created`. -/
def sortByCreated (l : List Instance) : List Instance :=
  l.foldr insertByCreated []

/-- A Python argument value at the `_terminate_pool_instances` call sites:
either an instance list or the pool object.  The signature is
`_terminate_pool_instances(running_instances, instance_pool)`
(`tasks.py:257`); the call at `tasks.py:111` passes the two arguments in the
OPPOSITE order, so the pool object reaches the code that iterates the
instance list. -/
inductive PyArg where
  | instsArg (pks : List Nat)
  | poolArg (p : InstancePool)
deriving Repr

/-- `_get_instance_ids_by_region` (`tasks.py:267-275`): iterates its
argument; an `InstancePool` is not iterable, so passing one raises
`TypeError`. -/
def get_instance_ids_by_region (objs : List Instance) :
    PyArg → Except PyErr (List (String × List String))
  | .instsArg pks =>
      .ok ((pks.filterMap (objGet objs)).foldl
        (fun a i => groupInsert a i.region i.instance_id) [])
  | .poolArg _ =>
      .error ⟨"TypeError", "InstancePool object is not iterable"⟩

/-- `_terminate_pool_instances` (`tasks.py:257-264`): group the ids by
region (this is where a swapped argument explodes, BEFORE the inner
`try`) and issue the terminate call.  Provider-side failures inside the
`try` are caught there and do not propagate; the oracle models the call as
succeeding. -/
def terminate_pool_instances (objs : List Instance)
    (running_instances _instance_pool : PyArg) : Except PyErr CloudAction :=
  match get_instance_ids_by_region objs running_instances with
  | .error e => .error e
  | .ok ids => .ok (CloudAction.terminateInstances ids)

/-- The per-tick environment: the wall clock, the cores-per-instance table
(`CORES_PER_INSTANCE` of `common/ec2.py` is not under `src/`; §3 and §4.1
describe it as a static provider table, so it is a parameter), the two
config-validation predicates (`PoolConfig.isCyclic` /
`getMissingParameters` live in `models.py`, not under `src/`; §4.6 step 2
reduces them to two booleans), the compiled user data (`None` models a
failed compilation, `_setup_userdata` raising at `tasks.py:209-211`), and
the flattened pool config. -/
structure Env where
  now : Int
  cores : String → Nat
  isCyclic : Bool
  missingParams : Bool
  userdata : Option String
  config : PoolConfig

/-- The price-too-low message built at `tasks.py:167-169`. -/
def priceTooLowMsg (rejected : List (String × ℚ)) : String :=
  rejected.foldl (fun m zr => m ++ "\n" ++ zr.1 ++ " at " ++ reprStr zr.2)
    "No allowed regions was cheap enough to spawn instances."

/-- Modelled from the spec: the `PoolStatusEntry` saved on the
price-too-low path (`tasks.py:164-170`) never assigns `isCritical`, and the
model default in `models.py` is not under `src/`; §7 lists only
`config-error` and `unclassified` as critical kinds, so the default is
non-critical. -/
def priceTooLowEntry (pool_id : Nat) (rejected : List (String × ℚ)) :
    PoolStatusEntry :=
  ⟨pool_id, "price-too-low", priceTooLowMsg rejected, false⟩

/-- `_start_pool_instances` (`tasks.py:119-196`).  The winnowing of
`tasks.py:130-145` runs first; `_setup_userdata` is called OUTSIDE the
`try` (`tasks.py:147`), so its failure propagates out of the function; the
`try` of `tasks.py:149-193` covers location selection, image resolution,
the start call and record creation; the handler at `tasks.py:195-196`
routes the raised classified error through `_update_pool_status`, whose
type lookup raises `KeyError` for a non-classified exception kind.  Note
`count` is the CORES-missing number and is passed to the provider
unchanged at `tasks.py:182-183` — no conversion to an instance count
happens in this revision of the caller. -/
def start_pool_instances (oracle : CloudOracle) (env : Env) (st : PoolState)
    (count : Int) : Except PyErr (PoolState × List CloudAction) :=
  let config := env.config
  let image_name := get_image_name config
  let allowed_regions := get_allowed_regions config
  let instance_types := winnow_types (get_instance_types config) env.cores count
  match env.userdata with
  | none =>
      .error ⟨"unclassified", "Configuration error: Failed to compile userdata"⟩
  | some _userdata =>
      let body : Except (PoolState × List CloudAction × PyErr)
          (PoolState × List CloudAction) :=
        if uses_zones then
          match determine_best_location config allowed_regions instance_types
            st.cache env.cores with
          | none =>
              -- Python unpacks the four-tuple; `_determine_best_location`
              -- returned `None`, so the unpacking raises `TypeError`.
              .error (st, [], ⟨"TypeError", "cannot unpack NoneType"⟩)
          | some (bregion, bzone, btype, rejected) =>
              match bregion with
              | none =>
                  let dup := st.journal.any (fun e =>
                    e.pool == st.pool.id && e.type == "price-too-low")
                  let j := if dup then st.journal
                    else st.journal ++ [priceTooLowEntry st.pool.id rejected]
                  .ok ({ st with journal := j }, [])
              | some region =>
                  let zone := bzone.getD ""
                  let itype := btype.getD ""
                  match resolve_image st.cache region image_name
                    (oracle.imageId region) with
                  | .error e => .error (st, [CloudAction.getImage region], e)
                  | .ok (image, cache2, acts1) =>
                      let st1 : PoolState := { st with cache := cache2 }
                      let act := CloudAction.startInstances region zone image itype count
                      match oracle.startRequestIds region zone itype count with
                      | .error e => .error (st1, acts1 ++ [act], e)
                      | .ok rids =>
                          let mk := fun (acc : List Instance × List Nat × Nat)
                              (rid : String) =>
                            (acc.1 ++ [⟨acc.2.2, rid, none, region, zone,
                              INSTANCE_STATE "requested", st.pool.id,
                              (env.cores itype : Int), env.now⟩],
                             acc.2.1 ++ [acc.2.2], acc.2.2 + 1)
                          let r := rids.foldl mk (st1.objs, st1.dbIds, st1.nextPk)
                          let st2 : PoolState :=
                            { st1 with objs := r.1, dbIds := r.2.1,
                                       nextPk := r.2.2 }
                          .ok (st2, acts1 ++ [act])
        else .ok (st, [])
      match body with
      | .ok r => .ok r
      | .error (stE, actsE, e) =>
          match POOL_STATUS_ENTRY_TYPE e.etype with
          | none => .error ⟨"KeyError", e.etype⟩
          | some _ =>
              let j := stE.journal ++ [⟨stE.pool.id, e.etype, e.data, true⟩]
              .ok ({ stE with journal := j }, actsE)

/-- `check_instance_pool` (`tasks.py:19-116`), after the pool lock has been
acquired (the lock manager is §4.7 and out of this embedding's scope).
Returns the new world state and the cloud calls made, or the uncaught
exception that crashed the tick. -/
def check_instance_pool (oracle : CloudOracle) (env : Env) (st : PoolState) :
    Except PyErr (PoolState × List CloudAction) :=
  let criticals := st.journal.filter (fun e =>
    e.pool == st.pool.id && e.isCritical)
  if !criticals.isEmpty then .ok (st, [])
  else if env.isCyclic || env.missingParams then
    let j := st.journal ++ [⟨st.pool.id, "config-error", "Configuration error.", true⟩]
    .ok ({ st with journal := j }, [])
  else
    let config := env.config
    let r1 := update_pool_instances oracle st
    let st1 := r1.1
    let acts1 := r1.2.2
    let scan := capacity_scan config.size (poolInstances st1)
    let missing := scan.1
    let running := scan.2.1
    let st2 : PoolState :=
      { st1 with dbIds := st1.dbIds.filter (fun pk => !(scan.2.2.contains pk)) }
    if !st2.pool.isEnabled then
      if !running.isEmpty then
        match terminate_pool_instances st2.objs (.instsArg running)
          (.poolArg st2.pool) with
        | .error e => .error e
        | .ok act => .ok (st2, acts1 ++ [act])
      else .ok (st2, acts1)
    else
      let needsCycle := match st2.pool.last_cycled with
        | none => true
        | some t => t < env.now - config.cycle_interval
      let cyc : Except PyErr (PoolState × List CloudAction) :=
        if needsCycle then
          let pool2 : InstancePool := { st2.pool with last_cycled := some env.now }
          match terminate_pool_instances st2.objs (.instsArg running)
            (.poolArg pool2) with
          | .error e => .error e
          | .ok act => .ok ({ st2 with pool := pool2 }, [act])
        else .ok (st2, [])
      match cyc with
      | .error e => .error e
      | .ok (st3, actsC) =>
          if missing > 0 then
            match start_pool_instances oracle env st3 missing with
            | .error e => .error e
            | .ok (st4, acts4) => .ok (st4, acts1 ++ actsC ++ acts4)
          else if missing < 0 then
            let selected := scale_down_select missing
              (sortByCreated (poolInstances st3))
            if !selected.isEmpty then
              -- tasks.py:111: `_terminate_pool_instances(instance_pool, instances)`
              -- — the arguments are swapped relative to the signature.
              match terminate_pool_instances st3.objs (.poolArg st3.pool)
                (.instsArg (selected.map (fun i => i.pk))) with
              | .error e => .error e
              | .ok act => .ok (st3, acts1 ++ actsC ++ [act])
            else .ok (st3, acts1 ++ actsC)
          else .ok (st3, acts1 ++ actsC)

/-! ## Concrete fixtures used by the claim theorems and witnesses -/

/-- Example cores-per-instance table: type `A` has 4 cores, `B` has 8. -/
def coresAB : String → Nat
  | "A" => 4
  | "B" => 8
  | _ => 1

def upTags : List (String × String) := [(SPOTMGR_TAG ++ "-Updatable", "1")]

/-- An oracle for runs that must make no cloud calls on the checked path. -/
def oracleNull : CloudOracle :=
  { spotResults := fun _ _ => .error ⟨"unclassified", "not called"⟩
    cloudInstances := fun _ _ => .error ⟨"unclassified", "not called"⟩
    startRequestIds := fun _ _ _ _ => .error ⟨"unclassified", "not called"⟩
    imageId := fun _ => .error ⟨"unclassified", "not called"⟩ }

/-- Pool config with instance types `A` (4 cores, newest price $0.16/core)
and `B` (8 cores, newest price $0.03/core). -/
def cfgAB : PoolConfig :=
  { size := 8, cycle_interval := 100000,
    ec2_allowed_regions := ["us-east-1"], ec2_instance_types := ["A", "B"],
    ec2_max_price := 1/2, ec2_image_name := "img", ec2_tags := [] }

def dataA : List (String × List (String × List ℚ)) :=
  [("us-east-1", [("us-east-1a", [64/100])])]

def dataB : List (String × List (String × List ℚ)) :=
  [("us-east-1", [("us-east-1b", [24/100])])]

/-- The price cache holding data for both types. -/
def cacheAB : Cache :=
  (Cache.empty.set "EC2Spot:price:A" (.prices dataA) 3600).set
    "EC2Spot:price:B" (.prices dataB) 3600

/-- The same snapshot in the structured form `_determine_best_price` takes,
with `B` first, so the stale divisor of `start_instances` is `A`. -/
def pricesBA : List (String × List (String × List (String × List ℚ))) :=
  [("B", dataB), ("A", dataA)]

/-- Scale-up fixture: pool 1 needs 8 cores, has no instances. -/
def poolUp : InstancePool := ⟨1, true, some 990⟩

def envUp : Env :=
  { now := 1000, cores := coresAB, isCyclic := false, missingParams := false,
    userdata := some "ud", config := cfgAB }

def stUp : PoolState := ⟨poolUp, [], [], [], cacheAB, 1⟩

/-- Scale-up oracle: the image resolves to `ami-1`, the start call returns
one spot-request id. -/
def oracleUp : CloudOracle :=
  { oracleNull with
    startRequestIds := fun _ _ _ _ => .ok ["sir-1"]
    imageId := fun _ => .ok "ami-1" }

/-- Scale-up oracle whose start call fails with a classified
`temporary-failure` (`EC2SpotCloudProvider.py:142-145`). -/
def oracleUpFail : CloudOracle :=
  { oracleNull with
    startRequestIds := fun _ _ _ _ =>
      .error ⟨"temporary-failure", "Temporary failure occurred: conn reset"⟩
    imageId := fun _ => .ok "ami-1" }

/-- Scale-down fixture (spec §8 scenario 2): pool size 4, three running
4-core instances created 100, 50 and 10 seconds ago. -/
def inst100 : Instance := ⟨1, "i-100", some "h", "r1", "z1", 16, 1, 4, 900⟩

def inst50 : Instance := ⟨2, "i-50", some "h", "r1", "z1", 16, 1, 4, 950⟩

def inst10 : Instance := ⟨3, "i-10", some "h", "r1", "z1", 16, 1, 4, 990⟩

def poolDown : InstancePool := ⟨1, true, some 990⟩

def cfgDown : PoolConfig :=
  { size := 4, cycle_interval := 100000, ec2_allowed_regions := ["r1"],
    ec2_instance_types := [], ec2_max_price := 1, ec2_image_name := "img",
    ec2_tags := [] }

def envDown : Env :=
  { now := 1000, cores := coresAB, isCyclic := false, missingParams := false,
    userdata := some "ud", config := cfgDown }

def oracleDown : CloudOracle :=
  { oracleNull with
    cloudInstances := fun _ _ => .ok
      [⟨"i-100", 16, upTags⟩, ⟨"i-50", 16, upTags⟩, ⟨"i-10", 16, upTags⟩] }

def stDown : PoolState :=
  ⟨poolDown, [inst100, inst50, inst10], [1, 2, 3], [], Cache.empty, 4⟩

/-- Retraction fixture: one pending spot request that the cloud reports
fulfilled, and three outstanding journal entries. -/
def instReq : Instance := ⟨1, "sir-X", none, "r1", "z1", -1, 1, 4, 900⟩

def entryMax : PoolStatusEntry :=
  ⟨1, "max-spot-instance-count-exceeded", "m", true⟩

def entryTmp : PoolStatusEntry := ⟨1, "temporary-failure", "t", true⟩

def entryUnc : PoolStatusEntry := ⟨1, "unclassified", "u", true⟩

def oracleFul : CloudOracle :=
  { oracleNull with
    spotResults := fun _ _ => .ok [.fulfilled "i-Y" "host1" 16]
    cloudInstances := fun _ _ => .ok [⟨"i-Y", 16, upTags⟩] }

def stFul : PoolState :=
  ⟨poolDown, [instReq], [1], [entryMax, entryTmp, entryUnc], Cache.empty, 2⟩

/-- Blacklist fixture (spec §8 scenario 6): spot request `sir-Z` in zone
`us-east-1a` for type `A`, reported `cancelled` by the provider. -/
def instZ : Instance := ⟨1, "sir-Z", none, "us-east-1", "us-east-1a", -1, 1, 4, 900⟩

def oracleBlk : CloudOracle :=
  { oracleNull with
    spotResults := fun _ _ => .ok [.request "cancelled" "c" "A"]
    cloudInstances := fun _ _ => .ok [] }

def cacheBlk : Cache :=
  Cache.empty.set "EC2Spot:price:A" (.prices dataA) 3600

def stBlk : PoolState := ⟨poolDown, [instZ], [1], [], cacheBlk, 2⟩

/-- A journal state holding a critical entry for pool 1. -/
def stCrit : PoolState :=
  ⟨poolDown, [], [], [⟨1, "config-error", "Configuration error.", true⟩],
   Cache.empty, 1⟩

/-- A cache already holding the image key of region `us-east-1`. -/
def cacheImg : Cache :=
  Cache.empty.set "EC2Spot:image:us-east-1:img" (.str "ami-cached") 86400

/-- Cloud listing with a high-byte-tainted terminated code (`256 + 48`) and
a genuine terminated code. -/
def cloudListC10 : List CloudInstanceInfo :=
  [⟨"i-a", 304, []⟩, ⟨"i-b", 48, []⟩]

/-- The states the capacity loop keeps and counts: everything except
`shutting-down` and `terminated`. -/
def countedState (i : Instance) : Bool :=
  !(i.status_code == INSTANCE_STATE "shutting-down" ||
    i.status_code == INSTANCE_STATE "terminated")

/-- The best-candidate pair of a selection state differs from `(z, t)`. -/
def pairOk (z t : String) (st : BestState) : Prop :=
  ¬(st.best_zone = some z ∧ st.best_type = some t)

/-! ## Helper lemmas -/

theorem gpm_single (x : ℚ) : get_price_median [x] = x := by
  simp [get_price_median, sortRat, insertLeRat]

theorem notTerminalBool (c : Nat) :
    (!((c : Int) == INSTANCE_STATE "shutting-down" ||
       (c : Int) == INSTANCE_STATE "terminated")) = true ↔
    ¬(c = 32 ∨ c = 48) := by
  simp only [INSTANCE_STATE, Bool.not_eq_true', Bool.or_eq_false_iff,
    beq_eq_false_iff_ne, ne_eq]
  omega

/-! ## Claim theorems -/

/-- C10: `check_instances_state` excludes a cloud instance exactly when its
raw, unmasked state code is 32 (shutting-down) or 48 (terminated), and
reports for every included instance the masked low byte
`state_code % 256`; hence a code like 304 (low byte 48, high byte 1) is
included, carrying status 48. -/
theorem check_instances_state_raw_filter_masked
    (l : List CloudInstanceInfo) :
    (∀ ci ∈ l, ¬(ci.state_code = 32 ∨ ci.state_code = 48) →
      (ci.id, ((ci.state_code % 256 : Nat) : Int), ci.tags) ∈
        check_instances_state l) ∧
    (∀ x ∈ check_instances_state l, ∃ ci ∈ l,
      ¬(ci.state_code = 32 ∨ ci.state_code = 48) ∧
      x = (ci.id, ((ci.state_code % 256 : Nat) : Int), ci.tags)) := by
  constructor
  · intro ci hmem hne
    unfold check_instances_state
    apply List.mem_map.mpr
    refine ⟨ci, ?_, rfl⟩
    exact List.mem_filter.mpr ⟨hmem, (notTerminalBool ci.state_code).mpr hne⟩
  · intro x hx
    unfold check_instances_state at hx
    obtain ⟨ci, hci, hxe⟩ := List.mem_map.mp hx
    obtain ⟨hmem, hcond⟩ := List.mem_filter.mp hci
    exact ⟨ci, hmem, (notTerminalBool ci.state_code).mp hcond, hxe.symm⟩

/-- Witness for C10: in `cloudListC10`, the instance with raw code 304 is
included with reported status 48, while the instance with raw code 48 is
excluded. -/
theorem check_instances_state_raw_filter_masked_witness :
    ("i-a", (48 : Int), ([] : List (String × String))) ∈
      check_instances_state cloudListC10 ∧
    ("i-b", (48 : Int), ([] : List (String × String))) ∉
      check_instances_state cloudListC10 :=
  ⟨(check_instances_state_raw_filter_masked cloudListC10).1
      ⟨"i-a", 304, []⟩ (by decide) (by decide),
   by decide⟩

/-- C6 counterexample: a `stopped` (code 80) instance of size 4 in a pool of
size 4.  The capacity loop leaves `instance_cores_missing = 0`, i.e. the
stopped instance DID count toward capacity; under the claim (only
requested/pending/running count) the missing count would be 4. -/
theorem capacity_counterexample_stopped_counts :
    (capacity_scan 4 [⟨1, "i-s", none, "r1", "z1", 80, 1, 4, 0⟩]).1 = 0 ∧
    4 - ((([⟨1, "i-s", none, "r1", "z1", 80, 1, 4, 0⟩] : List Instance).filter
      (fun i => i.status_code == INSTANCE_STATE "running" ||
        i.status_code == INSTANCE_STATE "pending" ||
        i.status_code == INSTANCE_STATE "requested")).map
          (fun i => i.size)).sum = 4 ∧
    (0 : Int) ≠ 4 := by
  refine ⟨by decide, by decide, by decide⟩

/-- C6 amended: during the capacity count, instances in `shutting-down` or
`terminated` are deleted and do not count; every other state — including
`stopped` and `stopping` — is kept and counts toward the pool's core
capacity. -/
theorem capacity_scan_counts_all_nonterminal (size : Int) (l : List Instance) :
    capacity_scan size l =
      (size - ((l.filter countedState).map (fun i => i.size)).sum,
       (l.filter countedState).map (fun i => i.pk),
       (l.filter (fun i => !countedState i)).map (fun i => i.pk)) := by
  induction l generalizing size with
  | nil => simp [capacity_scan]
  | cons i rest ih =>
      by_cases h1 : (i.status_code == INSTANCE_STATE "running" ||
          i.status_code == INSTANCE_STATE "pending" ||
          i.status_code == INSTANCE_STATE "requested") = true
      · have hc : countedState i = true := by
          simp only [INSTANCE_STATE, Bool.or_eq_true, beq_iff_eq] at h1
          simp only [countedState, INSTANCE_STATE, Bool.not_eq_true',
            Bool.or_eq_false_iff, beq_eq_false_iff_ne, ne_eq]
          omega
        simp only [capacity_scan, h1, List.filter_cons, hc, List.map_cons,
          List.sum_cons, ih, if_true, Prod.mk.injEq]
        exact ⟨by omega, trivial, by simp⟩
      · by_cases h2 : (i.status_code == INSTANCE_STATE "shutting-down" ||
            i.status_code == INSTANCE_STATE "terminated") = true
        · have hc : countedState i = false := by
            simp only [countedState, h2, Bool.not_true]
          simp [capacity_scan, h1, h2, hc, ih]
        · have h2f : (i.status_code == INSTANCE_STATE "shutting-down" ||
              i.status_code == INSTANCE_STATE "terminated") = false :=
            Bool.eq_false_iff.mpr h2
          have hc : countedState i = true := by
            simp only [countedState, h2f, Bool.not_false]
          simp only [capacity_scan, h1, h2f, List.filter_cons, hc,
            List.map_cons, List.sum_cons, ih, if_true, if_false,
            Bool.false_eq_true, Prod.mk.injEq]
          exact ⟨by omega, trivial, by simp⟩

/-- C9: the image-resolution step of `_start_pool_instances` never uses the
cached image id: because of the `image = None` overwrite at `tasks.py:176`,
`get_image` is called and the key rewritten on EVERY launch, even when the
key is present — here shown both in general and on a cache that already
holds `EC2Spot:image:us-east-1:img`. -/
theorem resolve_image_ignores_cache :
    (∀ (cache : Cache) (region name ami : String),
      resolve_image cache region name (.ok ami) =
        .ok (ami,
          cache.set ("EC2Spot" ++ ":image:" ++ region ++ ":" ++ name)
            (.str ami) 86400,
          [CloudAction.getImage region])) ∧
    resolve_image cacheImg "us-east-1" "img" (.ok "ami-fresh") =
      .ok ("ami-fresh",
        cacheImg.set "EC2Spot:image:us-east-1:img" (.str "ami-fresh") 86400,
        [CloudAction.getImage "us-east-1"]) := by
  constructor
  · intro cache region name ami
    rfl
  · rfl

/-- C5: if any critical status entry exists for the pool when
`check_instance_pool` runs, the tick returns immediately: the world state —
pool row, instance table, journal and cache — is unchanged and no cloud
call is made (`tasks.py:30-34`). -/
theorem check_instance_pool_critical_halt (oracle : CloudOracle) (env : Env)
    (st : PoolState)
    (h : ∃ e ∈ st.journal, e.pool = st.pool.id ∧ e.isCritical = true) :
    check_instance_pool oracle env st = .ok (st, []) := by
  obtain ⟨e, hmem, hp, hc⟩ := h
  have hin : e ∈ st.journal.filter
      (fun x => x.pool == st.pool.id && x.isCritical) :=
    List.mem_filter.mpr ⟨hmem, by simp [hp, hc]⟩
  have hne : (st.journal.filter
      (fun x => x.pool == st.pool.id && x.isCritical)).isEmpty = false := by
    rcases hfe : st.journal.filter
        (fun x => x.pool == st.pool.id && x.isCritical) with _ | ⟨a, tl⟩
    · rw [hfe] at hin
      cases hin
    · rw [hfe]
      rfl
  simp only [check_instance_pool, hne, Bool.not_false, if_true]

/-- Witness for C5: a pool whose journal holds a critical `config-error`
entry reconciles to the identical state with no cloud calls. -/
theorem check_instance_pool_critical_halt_witness :
    check_instance_pool oracleNull envDown stCrit = .ok (stCrit, []) :=
  check_instance_pool_critical_halt oracleNull envDown stCrit
    ⟨⟨1, "config-error", "Configuration error.", true⟩, by decide, by decide, rfl⟩

theorem regionStep_journal (oracle : CloudOracle) (pid : Nat)
    (acc : RegionState × List PoolStatusEntry) (entry : String × List String)
    (e : PoolStatusEntry) (he : e ∈ acc.2) :
    e ∈ (regionStep oracle pid acc entry).2 := by
  rcases hb : regionBody oracle pid acc.1 entry.1 entry.2 with ⟨rs, err⟩ | rs
  · simp only [regionStep, hb]
    exact List.mem_append_left _ he
  · simpa only [regionStep, hb] using he

theorem foldl_regionStep_journal (oracle : CloudOracle) (pid : Nat)
    (l : List (String × List String)) (acc : RegionState × List PoolStatusEntry)
    (e : PoolStatusEntry) (he : e ∈ acc.2) :
    e ∈ (l.foldl (regionStep oracle pid) acc).2 := by
  induction l generalizing acc with
  | nil => exact he
  | cons x xs ih => exact ih _ (regionStep_journal oracle pid acc x e he)

theorem retractPredBool (pid : Nat) (e : PoolStatusEntry) :
    (!(e.pool == pid && (e.type == "max-spot-instance-count-exceeded" ||
      e.type == "temporary-failure"))) = true ↔
    ¬(e.pool = pid ∧ (e.type = "max-spot-instance-count-exceeded" ∨
      e.type = "temporary-failure")) := by
  simp only [Bool.not_eq_true', Bool.and_eq_false_iff, Bool.or_eq_false_iff,
    beq_eq_false_iff_ne, ne_eq, not_and, not_or]
  tauto

/-- C7: whenever a reconciliation observes at least one fulfilled spot
request (`instances_created = true`), every outstanding
`max-spot-instance-count-exceeded` and every `temporary-failure` entry of
this pool is deleted from the journal, and every journal entry of any other
type (or pool) survives (`tasks.py:439-449`). -/
theorem update_pool_instances_retracts_transients (oracle : CloudOracle)
    (st : PoolState)
    (h : (update_pool_instances oracle st).2.1 = true) :
    (∀ e ∈ st.journal, e.pool = st.pool.id →
      (e.type = "max-spot-instance-count-exceeded" ∨
       e.type = "temporary-failure") →
      e ∉ (update_pool_instances oracle st).1.journal) ∧
    (∀ e ∈ st.journal,
      ¬(e.pool = st.pool.id ∧ (e.type = "max-spot-instance-count-exceeded" ∨
        e.type = "temporary-failure")) →
      e ∈ (update_pool_instances oracle st).1.journal) := by
  rcases hf : upi_regions oracle st with ⟨rsN, j1⟩
  have hcreated : rsN.created = true := by
    have h2 := h
    unfold update_pool_instances at h2
    rw [hf] at h2
    exact h2
  have hj : (update_pool_instances oracle st).1.journal =
      j1.filter (fun e => !(e.pool == st.pool.id &&
        (e.type == "max-spot-instance-count-exceeded" ||
         e.type == "temporary-failure"))) := by
    unfold update_pool_instances
    rw [hf]
    simp [hcreated]
  constructor
  · intro e hmem hp hty hcontra
    rw [hj] at hcontra
    exact (retractPredBool st.pool.id e).mp
      (List.mem_filter.mp hcontra).2 ⟨hp, hty⟩
  · intro e hmem hnot
    rw [hj]
    refine List.mem_filter.mpr ⟨?_, (retractPredBool st.pool.id e).mpr hnot⟩
    have h1 : e ∈ (upi_regions oracle st).2 := by
      unfold upi_regions
      exact foldl_regionStep_journal _ _ _ _ _ hmem
    rw [hf] at h1
    exact h1

/-- Witness for C7: the fulfilled request `sir-X -> i-Y` retracts the
`max-spot-instance-count-exceeded` and `temporary-failure` entries of pool 1
while the `unclassified` entry survives. -/
theorem update_pool_instances_retracts_transients_witness :
    entryMax ∉ (update_pool_instances oracleFul stFul).1.journal ∧
    entryTmp ∉ (update_pool_instances oracleFul stFul).1.journal ∧
    entryUnc ∈ (update_pool_instances oracleFul stFul).1.journal :=
  ⟨(update_pool_instances_retracts_transients oracleFul stFul (by decide)).1
      entryMax (by decide) (by decide) (Or.inl (by decide)),
   (update_pool_instances_retracts_transients oracleFul stFul (by decide)).1
      entryTmp (by decide) (by decide) (Or.inr (by decide)),
   (update_pool_instances_retracts_transients oracleFul stFul (by decide)).2
      entryUnc (by decide) (by decide)⟩

theorem processZone_pairOk {maxP : ℚ} {cores : String → Nat}
    {blk : String → String → Bool} {it reg zone : String} {ps : List ℚ}
    {st : BestState} {z t : String} (hblk : blk z t = true)
    (h : pairOk z t st) :
    pairOk z t (processZone maxP cores blk it reg zone ps st) := by
  unfold processZone
  by_cases hb : blk zone it
  · simpa only [hb, if_true] using h
  · have hbf : blk zone it = false := Bool.eq_false_iff.mpr hb
    simp only [hbf, Bool.false_eq_true, if_false]
    by_cases hp : (ps.map (fun p => p / (cores it : ℚ))).headD 0 > maxP
    · simpa only [hp, if_true] using h
    · simp only [hp, if_false]
      have hset : ¬(some zone = some z ∧ some it = some t) := by
        rintro ⟨h1, h2⟩
        injection h1 with h1
        injection h2 with h2
        rw [h1, h2] at hbf
        rw [hbf] at hblk
        cases hblk
      cases hm : st.best_median with
      | none => exact hset
      | some bm =>
          by_cases hlt : bm > get_price_median (ps.map (fun p => p / (cores it : ℚ)))
          · simpa only [hlt, if_true] using hset
          · simpa only [hlt, if_false] using h

theorem processZones_pairOk {maxP : ℚ} {cores : String → Nat}
    {blk : String → String → Bool} {it reg : String}
    {zones : List (String × List ℚ)} {st : BestState} {z t : String}
    (hblk : blk z t = true) (h : pairOk z t st) :
    pairOk z t (processZones maxP cores blk it reg zones st) := by
  induction zones generalizing st with
  | nil => exact h
  | cons x rest ih => exact ih (processZone_pairOk hblk h)

theorem processRegionsLoc_pairOk {maxP : ℚ} {cores : String → Nat}
    {blk : String → String → Bool} {it : String} {allowed : List String}
    {data : List (String × List (String × List ℚ))} {st : BestState}
    {z t : String} (hblk : blk z t = true) (h : pairOk z t st) :
    pairOk z t (processRegionsLoc maxP cores blk it allowed data st) := by
  induction data generalizing st with
  | nil => exact h
  | cons x rest ih =>
      unfold processRegionsLoc
      by_cases hc : allowed.contains x.1
      · simp only [hc, if_true]
        by_cases hz : uses_zones
        · simp only [hz, if_true]
          exact ih (processZones_pairOk hblk h)
        · simp only [hz, Bool.false_eq_true, if_false]
          exact ih h
      · have hcf : allowed.contains x.1 = false := Bool.eq_false_iff.mpr hc
        simp only [hcf, Bool.false_eq_true, if_false]
        exact ih h

theorem dbl_loop_pairOk {maxP : ℚ} {cores : String → Nat}
    {allowed : List String} {cache : Cache} {types : List String}
    {st : BestState} {z t : String} {r zn ty : Option String}
    {rej : List (String × ℚ)}
    (hblk : blkOf cache z t = true) (h : pairOk z t st)
    (hrun : dbl_loop maxP cores allowed cache types st =
      some (r, zn, ty, rej)) :
    ¬(zn = some z ∧ ty = some t) := by
  induction types generalizing st with
  | nil => simp [dbl_loop] at hrun
  | cons it rest ih =>
      unfold dbl_loop at hrun
      cases hp : priceOf cache it with
      | none =>
          rw [hp] at hrun
          exact ih h hrun
      | some data =>
          rw [hp] at hrun
          have h2 : pairOk z t
              (processRegionsLoc maxP cores (blkOf cache) it allowed data st) :=
            processRegionsLoc_pairOk hblk h
          simp only [Option.some.injEq, Prod.mk.injEq] at hrun
          obtain ⟨_, hzn, hty, _⟩ := hrun
          rw [← hzn, ← hty]
          exact h2

/-- C8: a spot request failed with the blacklist action sets the cache key
`EC2Spot:blacklist:<zone>:<instance_type>` with a 12-hour (43200 s) TTL and
deletes the local record (`tasks.py:350-359`, fed by
`EC2SpotCloudProvider.py:182-188` classifying `cancelled`/`closed`), and
while any such key is in the cache, `_determine_best_location` never
returns that `(zone, instance_type)` pair (`tasks.py:237-240`). -/
theorem blacklist_set_and_selector_skips (cfg : PoolConfig)
    (regions types : List String) (cache : Cache) (cores : String → Nat)
    (z t : String) (r zn ty : Option String) (rej : List (String × ℚ))
    (hblk : (cache.get ("EC2Spot:blacklist:" ++ z ++ ":" ++ t)).isSome = true)
    (hrun : determine_best_location cfg regions types cache cores =
      some (r, zn, ty, rej)) :
    ((update_pool_instances oracleBlk stBlk).1.cache.get
        "EC2Spot:blacklist:us-east-1a:A" = some (.str "") ∧
     (update_pool_instances oracleBlk stBlk).1.cache.ttl
        "EC2Spot:blacklist:us-east-1a:A" = some 43200 ∧
     (update_pool_instances oracleBlk stBlk).1.dbIds = []) ∧
    ¬(zn = some z ∧ ty = some t) := by
  refine ⟨⟨by decide, by decide, by decide⟩, ?_⟩
  have hblk2 : blkOf cache z t = true := hblk
  exact dbl_loop_pairOk hblk2 (by simp [pairOk, initBestState]) hrun

/-- Witness for C8: after the cancelled request for `(us-east-1a, A)` is
processed, the resulting cache holds the blacklist key, the record is gone,
and a selection over that cache (with price data for `A` in `us-east-1a`
present) picks nothing. -/
theorem blacklist_set_and_selector_skips_witness :
    ((update_pool_instances oracleBlk stBlk).1.cache.get
        "EC2Spot:blacklist:us-east-1a:A" = some (.str "") ∧
     (update_pool_instances oracleBlk stBlk).1.cache.ttl
        "EC2Spot:blacklist:us-east-1a:A" = some 43200 ∧
     (update_pool_instances oracleBlk stBlk).1.dbIds = []) ∧
    ¬((none : Option String) = some "us-east-1a" ∧
      (none : Option String) = some "A") :=
  blacklist_set_and_selector_skips cfgDown ["us-east-1"] ["A"]
    (update_pool_instances oracleBlk stBlk).1.cache coresAB
    "us-east-1a" "A" none none none [] (by decide) (by decide)

/-- C1 (code bug): with types `A` ($0.16/core in us-east-1a) and `B`
($0.03/core in us-east-1b), both priced and eligible,
`_determine_best_location` returns `A` — its `return` sits inside the
instance-type loop (`tasks.py:254`), so it answers after the first priced
type — while the provider revision `_determine_best_price`, whose `return`
is outside the loop, returns the globally cheapest candidate `B`. -/
theorem determine_best_location_not_global_best :
    determine_best_location cfgAB ["us-east-1"] ["A", "B"] cacheAB coresAB =
      some (some "us-east-1", some "us-east-1a", some "A", []) ∧
    determine_best_price cfgAB [("A", dataA), ("B", dataB)] [] coresAB =
      (some "us-east-1", some "us-east-1b", some "B", []) ∧
    (24/100 : ℚ) / 8 < (64/100 : ℚ) / 4 := by
  refine ⟨?_, ?_, by norm_num⟩
  · simp [determine_best_location, dbl_loop, priceOf, cfgAB, cacheAB, coresAB,
      dataA, dataB, Cache.set, Cache.empty, Cache.get, get_name, get_max_price,
      blkOf, initBestState, processRegionsLoc, processZones, processZone,
      uses_zones, gpm_single, rejectedUpdate, List.find?, List.filter,
      List.contains]
    norm_num
  · simp [determine_best_price, dbp_loop, cfgAB, coresAB, dataA, dataB,
      initBestState, processRegionsPrice, processZones, processZone,
      gpm_single, rejectedUpdate, List.contains]
    norm_num

/-- C2 (code bug): for a pool of size 4 with three running 4-core instances
aged 100, 50 and 10 seconds, the reconciler's selection loop picks exactly
the two oldest instances — but the call at `tasks.py:111` passes
`(instance_pool, instances)` to a function whose signature is
`(running_instances, instance_pool)` (`tasks.py:257`), so building the
region map iterates the pool object and the tick dies with `TypeError`
instead of terminating the selected instances. -/
theorem scale_down_picks_oldest_but_call_swapped :
    (capacity_scan cfgDown.size
      (poolInstances (update_pool_instances oracleDown stDown).1)).1 = -8 ∧
    scale_down_select (-8) (sortByCreated (poolInstances stDown)) =
      [inst100, inst50] ∧
    check_instance_pool oracleDown envDown stDown =
      .error ⟨"TypeError", "InstancePool object is not iterable"⟩ :=
  ⟨by decide, by decide, by decide⟩

/-- C3 (code bug): the cores-needed count is never divided by the chosen
type's core count before instances are requested.  In the reconciler
(`tasks.py:182-183`) the raw cores count (8) is passed straight to the
provider as the instance count even though the chosen type `A` has 4 cores
(the claim's conversion would give 2); in the provider revision
(`EC2SpotCloudProvider.py:90`) the division uses the stale loop variable —
the LAST configured type — so with types `[B, A]` it divides 8 by
`cores(A) = 4` and requests 2 instances although the selection then picks
the 8-core type `B`, for which the claim's conversion gives 1. -/
theorem start_count_not_converted_by_chosen_type :
    (start_pool_instances oracleUp envUp stUp 8).toOption.map (fun r => r.2) =
      some [CloudAction.getImage "us-east-1",
        CloudAction.startInstances "us-east-1" "us-east-1a" "ami-1" "A" 8] ∧
    max 1 ((8 : Int) / (coresAB "A" : Int)) = 2 ∧
    ec2_convert_count ["B", "A"] coresAB 8 = 2 ∧
    determine_best_price
      { cfgAB with ec2_instance_types := winnow_types ["B", "A"] coresAB 8 }
      pricesBA [] coresAB =
      (some "us-east-1", some "us-east-1b", some "B", []) ∧
    max 1 ((8 : Int) / (coresAB "B" : Int)) = 1 := by
  refine ⟨?_, by decide, by decide, ?_, by decide⟩
  · simp [start_pool_instances, envUp, stUp, cfgAB, get_image_name,
      get_allowed_regions, get_instance_types, winnow_types, winnow_step,
      coresAB, oracleUp, oracleNull, resolve_image, PROVIDERS, uses_zones,
      determine_best_location, dbl_loop, priceOf, cacheAB, dataA, dataB,
      Cache.set, Cache.empty, Cache.get, get_name, get_max_price, blkOf,
      initBestState, processRegionsLoc, processZones, processZone,
      gpm_single, rejectedUpdate, List.find?, List.filter, List.contains]
    norm_num
    exact ⟨_, rfl⟩
  · simp [determine_best_price, dbp_loop, cfgAB, coresAB, pricesBA, dataA,
      dataB, winnow_types, winnow_step, initBestState, processRegionsPrice,
      processZones, processZone, gpm_single, rejectedUpdate, List.contains]
    norm_num

/-- C4 (code bug): `_update_pool_status` stores EVERY entry it creates with
`isCritical = True` (`tasks.py:291`), including provider errors classified
as `temporary-failure` or `max-spot-instance-count-exceeded`; a launch
failing with a classified `temporary-failure` therefore leaves a CRITICAL
journal entry, not the non-critical one the claim describes. -/
theorem update_pool_status_always_critical :
    update_pool_status [] 7 "temporary-failure" "t" =
      .ok [⟨7, "temporary-failure", "t", true⟩] ∧
    update_pool_status [] 7 "max-spot-instance-count-exceeded" "m" =
      .ok [⟨7, "max-spot-instance-count-exceeded", "m", true⟩] ∧
    (start_pool_instances oracleUpFail envUp stUp 8).toOption.map
      (fun r => r.1.journal) =
      some [⟨1, "temporary-failure",
        "Temporary failure occurred: conn reset", true⟩] := by
  refine ⟨rfl, rfl, ?_⟩
  simp [start_pool_instances, envUp, stUp, cfgAB, get_image_name,
    get_allowed_regions, get_instance_types, winnow_types, winnow_step,
    coresAB, oracleUpFail, oracleNull, resolve_image, PROVIDERS, uses_zones,
    determine_best_location, dbl_loop, priceOf, cacheAB, dataA, dataB,
    Cache.set, Cache.empty, Cache.get, get_name, get_max_price, blkOf,
    initBestState, processRegionsLoc, processZones, processZone,
    gpm_single, rejectedUpdate, List.find?, List.filter, List.contains,
    POOL_STATUS_ENTRY_TYPE]
  norm_num
  exact ⟨_, ⟨_, rfl⟩, rfl⟩

end SpotManager
